import Mathlib

/-!
Shallow embedding of the Flask service in src/app.py.

The application registers three routes, each with the default method set
(GET, plus the framework-supplied automatic HEAD and OPTIONS):

* GET /        -> returns the bare string 'Hello, from Fincra!'
* GET /health  -> returns the pair ({'status': 'healthy'}, 200)
* GET /ready   -> returns the pair ({'status': 'ready'}, 200)

Any other path yields the framework's default 404 response; a registered
path with a non-automatic method other than GET yields the framework's
default 405 response.  The __main__ block reads the PORT environment
variable, converts it with Python's int(), defaulting to 80 when unset,
and binds the server to that port.
-/

/-- HTTP methods of interest to the dispatcher. -/
inductive Method where
  | GET | HEAD | OPTIONS | POST | PUT | DELETE | PATCH
  deriving DecidableEq, Repr

/-- Response body: either literal text, or a flat JSON object with string
values (both handler dictionaries in app.py have this shape). -/
inductive Body where
  | text : String → Body
  | json : List (String × String) → Body
  deriving DecidableEq, Repr

/-- An HTTP response as observed by a client: status code and body. -/
structure Response where
  status : Nat
  body : Body
  deriving DecidableEq, Repr

/-- An HTTP request.  The handlers in app.py take no arguments, so only
the path (used for routing) and the method (checked against the rule's
method set) can influence the response; query parameters, headers and the
request body are carried here to state noninterference. -/
structure Request where
  method : Method
  path : String
  query : List (String × String)
  headers : List (String × String)
  body : String
  deriving DecidableEq, Repr

/-- A Flask view-function return value: either a bare string (implying
status 200) or a (dict, status) pair. -/
inductive HandlerReturn where
  | str : String → HandlerReturn
  | jsonWith : List (String × String) → Nat → HandlerReturn
  deriving DecidableEq, Repr

/-- View function for the route '/': returns a bare string. -/
def hello : HandlerReturn := .str "Hello, from Fincra!"

/-- View function for the route '/health': returns ({'status': 'healthy'}, 200). -/
def health : HandlerReturn := .jsonWith [("status", "healthy")] 200

/-- View function for the route '/ready': returns ({'status': 'ready'}, 200). -/
def ready : HandlerReturn := .jsonWith [("status", "ready")] 200

/-- The route table built by the three app.route decorators, in
registration order. -/
def routeTable : List (String × HandlerReturn) :=
  [("/", hello), ("/health", health), ("/ready", ready)]

/-- Conversion of a view-function return value to an HTTP response,
following Flask: a bare string gets status 200; a (dict, code) pair is
serialised as JSON with the given status code. -/
def toResponse : HandlerReturn → Response
  | .str s => ⟨200, .text s⟩
  | .jsonWith o c => ⟨c, .json o⟩

/-- Werkzeug's default 404 Not Found response. -/
def notFoundResponse : Response :=
  ⟨404, .text "<!doctype html>\n<html lang=en>\n<title>404 Not Found</title>\n<h1>Not Found</h1>\n<p>The requested URL was not found on the server. If you entered the URL manually please check your spelling and try again.</p>\n"⟩

/-- Werkzeug's default 405 Method Not Allowed response. -/
def methodNotAllowedResponse : Response :=
  ⟨405, .text "<!doctype html>\n<html lang=en>\n<title>405 Method Not Allowed</title>\n<h1>Method Not Allowed</h1>\n<p>The method is not allowed for the requested URL.</p>\n"⟩

/-- Response to the framework-supplied automatic HEAD: status of the GET
response with an empty body. -/
def headResponse : Response := ⟨200, .text ""⟩

/-- Response to the framework-supplied automatic OPTIONS: 200 with an
empty body (the Allow header is not modelled). -/
def optionsResponse : Response := ⟨200, .text ""⟩

/-- Flask request dispatch over the route table of app.py: exact path
match first (no match at all gives 404 whatever the method), then the
method check (GET runs the view function, the automatic HEAD and OPTIONS
are answered by the framework, anything else gives 405). -/
def dispatch (path : String) (method : Method) : Response :=
  match routeTable.find? (fun r => r.1 == path) with
  | none => notFoundResponse
  | some r =>
    match method with
    | .GET => toResponse r.2
    | .HEAD => headResponse
    | .OPTIONS => optionsResponse
    | _ => methodNotAllowedResponse

/-- Handling one request: the view functions take no arguments, so the
response is determined by the routing inputs alone. -/
def handle (req : Request) : Response :=
  dispatch req.path req.method

/-- Serving a sequence of requests: each is handled independently, with
no state threaded between them. -/
def serve (reqs : List Request) : List Response :=
  reqs.map handle

/-- The process-wide state of the running server: the port bound at
startup (held by the listening socket for the process lifetime). -/
structure ServerState where
  port : Int
  deriving DecidableEq, Repr

/-- One step of the running server: handle a request and return the
response together with the (unchanged) process state. -/
def handleStep (s : ServerState) (req : Request) : ServerState × Response :=
  (s, handle req)

/-- Whitespace characters stripped by Python's int() before parsing. -/
def isPySpace (c : Char) : Bool :=
  c == ' ' || c == '\t' || c == '\n' || c == '\r' || c == '\x0b' || c == '\x0c'

/-- Digit run of a Python integer literal string after its first digit:
digits, with single underscores allowed only between digits. -/
def digitsCore (acc : Nat) : List Char → Option Nat
  | [] => some acc
  | [c] => if c.isDigit then some (acc * 10 + (c.toNat - 48)) else none
  | c :: d :: cs =>
    if c.isDigit then digitsCore (acc * 10 + (c.toNat - 48)) (d :: cs)
    else if c == '_' && d.isDigit then digitsCore acc (d :: cs)
    else none

/-- Value of a nonempty digit run (with underscores between digits); none
when the run is empty, starts with a non-digit, or misuses underscores. -/
def digitsVal : List Char → Option Nat
  | [] => none
  | c :: cs => if c.isDigit then digitsCore (c.toNat - 48) cs else none

/-- Strip leading and trailing whitespace, as Python's int() does. -/
def stripPyWs (cs : List Char) : List Char :=
  ((cs.dropWhile isPySpace).reverse.dropWhile isPySpace).reverse

/-- Python's int() applied to a string, restricted to base 10: optional
surrounding whitespace, optional sign, then a digit run.  none models the
ValueError raised on any other input. -/
def pyInt? (s : String) : Option Int :=
  match stripPyWs s.data with
  | '+' :: rest => (digitsVal rest).map Int.ofNat
  | '-' :: rest => (digitsVal rest).map (fun n => -(n : Int))
  | rest => (digitsVal rest).map Int.ofNat

/-- Startup port selection from the __main__ block:
port = int(os.environ.get('PORT', 80)).  When PORT is unset the default
80 is used; when set, int() either yields the value or raises ValueError
(modelled as Except.error), in which case the server never binds. -/
def startPort (envPORT : Option String) : Except String Int :=
  match envPORT with
  | none => .ok 80
  | some s =>
    match pyInt? s with
    | some n => .ok n
    | none => .error "ValueError"

/-- C1: every GET request with path / gets status 200 and the literal
text body 'Hello, from Fincra!'. -/
theorem hello_route_response (req : Request)
    (hm : req.method = Method.GET) (hp : req.path = "/") :
    (handle req).status = 200 ∧ (handle req).body = Body.text "Hello, from Fincra!" := by
  have h : handle req = dispatch "/" Method.GET := by
    show dispatch req.path req.method = dispatch "/" Method.GET
    rw [hp, hm]
  rw [h]
  exact ⟨rfl, rfl⟩

/-- Witness for C1 at the concrete request GET /. -/
theorem hello_route_response_witness :
    (handle ⟨Method.GET, "/", [], [], ""⟩).status = 200 ∧
    (handle ⟨Method.GET, "/", [], [], ""⟩).body = Body.text "Hello, from Fincra!" :=
  hello_route_response ⟨Method.GET, "/", [], [], ""⟩ rfl rfl

/-- C2: every GET request with path /health gets status 200 and a JSON
body equal to the object with the single field status = healthy. -/
theorem health_route_response (req : Request)
    (hm : req.method = Method.GET) (hp : req.path = "/health") :
    (handle req).status = 200 ∧ (handle req).body = Body.json [("status", "healthy")] := by
  have h : handle req = dispatch "/health" Method.GET := by
    show dispatch req.path req.method = dispatch "/health" Method.GET
    rw [hp, hm]
  rw [h]
  exact ⟨rfl, rfl⟩

/-- Witness for C2 at the concrete request GET /health. -/
theorem health_route_response_witness :
    (handle ⟨Method.GET, "/health", [], [], ""⟩).status = 200 ∧
    (handle ⟨Method.GET, "/health", [], [], ""⟩).body = Body.json [("status", "healthy")] :=
  health_route_response ⟨Method.GET, "/health", [], [], ""⟩ rfl rfl

/-- C3: every GET request with path /ready gets status 200 and a JSON
body equal to the object with the single field status = ready. -/
theorem ready_route_response (req : Request)
    (hm : req.method = Method.GET) (hp : req.path = "/ready") :
    (handle req).status = 200 ∧ (handle req).body = Body.json [("status", "ready")] := by
  have h : handle req = dispatch "/ready" Method.GET := by
    show dispatch req.path req.method = dispatch "/ready" Method.GET
    rw [hp, hm]
  rw [h]
  exact ⟨rfl, rfl⟩

/-- Witness for C3 at the concrete request GET /ready. -/
theorem ready_route_response_witness :
    (handle ⟨Method.GET, "/ready", [], [], ""⟩).status = 200 ∧
    (handle ⟨Method.GET, "/ready", [], [], ""⟩).body = Body.json [("status", "ready")] :=
  ready_route_response ⟨Method.GET, "/ready", [], [], ""⟩ rfl rfl

/-- C4: every request whose path is none of /, /health, /ready — whatever
its method — gets the framework's default not-found response, status 404. -/
theorem unknown_path_not_found (req : Request)
    (h1 : req.path ≠ "/") (h2 : req.path ≠ "/health") (h3 : req.path ≠ "/ready") :
    handle req = notFoundResponse ∧ (handle req).status = 404 := by
  have hfind : routeTable.find? (fun r => r.1 == req.path) = none := by
    rw [List.find?_eq_none]
    intro x hx
    simp only [routeTable, List.mem_cons, List.not_mem_nil, or_false] at hx
    rcases hx with rfl | rfl | rfl <;> simp [beq_iff_eq] <;>
      first
        | exact Ne.symm h1
        | exact Ne.symm h2
        | exact Ne.symm h3
  have hH : handle req = notFoundResponse := by
    show dispatch req.path req.method = notFoundResponse
    unfold dispatch
    rw [hfind]
  exact ⟨hH, by rw [hH]; rfl⟩

/-- Witness for C4 at the concrete request GET /nonexistent. -/
theorem unknown_path_not_found_witness :
    handle ⟨Method.GET, "/nonexistent", [], [], ""⟩ = notFoundResponse ∧
    (handle ⟨Method.GET, "/nonexistent", [], [], ""⟩).status = 404 :=
  unknown_path_not_found ⟨Method.GET, "/nonexistent", [], [], ""⟩
    (by decide) (by decide) (by decide)

/-- C5: when the PORT environment variable holds a valid integer the
server binds to that port, and when it is unset the server binds to port
80. -/
theorem port_selection_env (s : String) (n : Int) (h : pyInt? s = some n) :
    startPort (some s) = Except.ok n ∧ startPort none = Except.ok 80 := by
  constructor
  · show (match pyInt? s with
          | some n => Except.ok n
          | none => Except.error "ValueError") = Except.ok n
    rw [h]
  · rfl

/-- Witness for C5 at PORT set to 8080. -/
theorem port_selection_env_witness :
    pyInt? "8080" = some 8080 ∧
    (startPort (some "8080") = Except.ok 8080 ∧ startPort none = Except.ok 80) :=
  ⟨by decide, port_selection_env "8080" 8080 (by decide)⟩

/-- C6: serving is stateless and idempotent: whenever two positions of a
request sequence carry identical requests — in any order and with any
requests in between — the responses at those positions are identical. -/
theorem serve_stateless_idempotent (reqs : List Request) (i j : Nat)
    (h : reqs[i]? = reqs[j]?) :
    (serve reqs)[i]? = (serve reqs)[j]? := by
  simp only [serve, List.getElem?_map, h]

/-- Witness for C6: the same GET /health request at positions 0 and 2,
with a different request in between, gets the same response. -/
theorem serve_stateless_idempotent_witness :
    [(⟨Method.GET, "/health", [], [], ""⟩ : Request),
     ⟨Method.POST, "/", [], [], "x"⟩,
     ⟨Method.GET, "/health", [], [], ""⟩][0]? =
    [(⟨Method.GET, "/health", [], [], ""⟩ : Request),
     ⟨Method.POST, "/", [], [], "x"⟩,
     ⟨Method.GET, "/health", [], [], ""⟩][2]? ∧
    (serve [⟨Method.GET, "/health", [], [], ""⟩,
            ⟨Method.POST, "/", [], [], "x"⟩,
            ⟨Method.GET, "/health", [], [], ""⟩])[0]? =
    (serve [⟨Method.GET, "/health", [], [], ""⟩,
            ⟨Method.POST, "/", [], [], "x"⟩,
            ⟨Method.GET, "/health", [], [], ""⟩])[2]? :=
  ⟨rfl, serve_stateless_idempotent _ 0 2 rfl⟩

/-- C7: noninterference — two requests agreeing on path and method get
identical responses, whatever their query parameters, headers and bodies:
the handlers inspect nothing but the routing inputs. -/
theorem handlers_noninterference (r1 r2 : Request)
    (hp : r1.path = r2.path) (hm : r1.method = r2.method) :
    handle r1 = handle r2 := by
  show dispatch r1.path r1.method = dispatch r2.path r2.method
  rw [hp, hm]

/-- Witness for C7: a GET /health request carrying a query string,
headers and a body gets the same response as the bare one. -/
theorem handlers_noninterference_witness :
    handle ⟨Method.GET, "/health", [("debug", "1")], [("X-Auth", "secret")], "payload"⟩ =
    handle ⟨Method.GET, "/health", [], [], ""⟩ :=
  handlers_noninterference _ _ rfl rfl

/-- C8: frame property — handling any request leaves the process-wide
state (the port bound at startup) unchanged, and the emitted response is
exactly the handler's. -/
theorem handle_frame_preserves_state (s : ServerState) (req : Request) :
    (handleStep s req).1 = s ∧ (handleStep s req).2 = handle req :=
  ⟨rfl, rfl⟩

/-- C9: a request to a defined path with a method other than GET and the
automatic HEAD/OPTIONS gets the framework's 405 Method Not Allowed
response — neither 404 nor 200. -/
theorem wrong_method_not_allowed (req : Request)
    (hp : req.path = "/" ∨ req.path = "/health" ∨ req.path = "/ready")
    (h1 : req.method ≠ Method.GET) (h2 : req.method ≠ Method.HEAD)
    (h3 : req.method ≠ Method.OPTIONS) :
    handle req = methodNotAllowedResponse ∧ (handle req).status = 405 ∧
    (handle req).status ≠ 404 ∧ (handle req).status ≠ 200 := by
  have hH : handle req = methodNotAllowedResponse := by
    show dispatch req.path req.method = methodNotAllowedResponse
    rcases hp with hp | hp | hp <;> rw [hp] <;> cases hm : req.method <;>
      first
        | exact absurd hm h1
        | exact absurd hm h2
        | exact absurd hm h3
        | rfl
  refine ⟨hH, ?_, ?_, ?_⟩ <;> rw [hH] <;> decide

/-- Witness for C9 at the concrete request POST /. -/
theorem wrong_method_not_allowed_witness :
    handle ⟨Method.POST, "/", [], [], ""⟩ = methodNotAllowedResponse ∧
    (handle ⟨Method.POST, "/", [], [], ""⟩).status = 405 ∧
    (handle ⟨Method.POST, "/", [], [], ""⟩).status ≠ 404 ∧
    (handle ⟨Method.POST, "/", [], [], ""⟩).status ≠ 200 :=
  wrong_method_not_allowed ⟨Method.POST, "/", [], [], ""⟩
    (Or.inl rfl) (by decide) (by decide) (by decide)

/-- C10: when PORT is set to a string that is not a valid integer,
startup fails with ValueError and the server binds to no port at all — in
particular it does not fall back to the default 80. -/
theorem invalid_port_value_error (s : String) (h : pyInt? s = none) :
    startPort (some s) = Except.error "ValueError" ∧
    ∀ n : Int, startPort (some s) ≠ Except.ok n := by
  have hs : startPort (some s) = Except.error "ValueError" := by
    show (match pyInt? s with
          | some n => Except.ok n
          | none => Except.error "ValueError") = Except.error "ValueError"
    rw [h]
  exact ⟨hs, fun n hn => by rw [hs] at hn; exact Except.noConfusion hn⟩

/-- Witness for C10 at PORT set to the non-numeric string abc. -/
theorem invalid_port_value_error_witness :
    pyInt? "abc" = none ∧
    (startPort (some "abc") = Except.error "ValueError" ∧
     ∀ n : Int, startPort (some "abc") ≠ Except.ok n) :=
  ⟨by decide, invalid_port_value_error "abc" (by decide)⟩
